import Mathlib

/-!
# StatusPoller: a verification development for `polling.js`

The script scans the page for pending videos, and for each of them runs a
timer-driven poll loop against `/videos/{id}/status/` until a terminal status
is seen, at which point it reloads the page.

The embedding is shallow.  Browser side effects (`fetch`, `response.json()`,
`console.error`, `window.location.reload()`, `setTimeout`) are recorded as an
ordered list of `Effect`s.  What the environment decides (whether the request is
rejected, the HTTP status code, the result of parsing the body) is an explicit
input, `Outcome`.  The event loop is a step function on a `State` holding the
pending timers and the in-flight requests.
-/

namespace Polling

/-! ## JavaScript values -/

/-- A JavaScript number as `response.json()` can produce it: a finite double
`mantissa * 2 ^ exponent` (both signed zeros have mantissa `0`) or an infinity
(the parse of an overflowing literal such as `1e999`).  JSON has no literal for
NaN, so none is modelled. -/
inductive JSNumber where
  | finite (mantissa : Int) (exponent : Int)
  | infinite (negative : Bool)

/-- A JavaScript value.  `object` lists own properties; a property is read by
its first entry in the list.  `undefined` is what reading a missing property
gives. -/
inductive JSValue where
  | undefined
  | null
  | bool (b : Bool)
  | number (n : JSNumber)
  | string (s : String)
  | array (items : List JSValue)
  | object (fields : List (String × JSValue))

/-- A thrown value or rejection reason. -/
inductive JSError where
  /-- The value built by `new Error(message)` in the script. -/
  | error (message : String)
  /-- The TypeError the engine raises when `property` is read from `null` or
  `undefined`. -/
  | typeError (property : String)
  /-- A reason supplied by the environment: the rejection of `fetch` or of
  `response.json()`. -/
  | rejection (name : String) (message : String)

/-- Property read `v.key` (the `[[Get]]` of the language).  Primitives and
arrays have no `status` or `video_url` property on their prototypes, so every
read that is not an own property of an object gives `undefined`; reading from
`null` or `undefined` throws. -/
def JSValue.get (v : JSValue) (key : String) : Except JSError JSValue :=
  match v with
  | .undefined => .error (.typeError key)
  | .null => .error (.typeError key)
  | .object fields =>
      match fields.lookup key with
      | some x => .ok x
      | none => .ok .undefined
  | _ => .ok .undefined

/-- Comparison `v === "literal"` against a string literal: true exactly for the
string value with the same characters. -/
def JSValue.strictEqualsString (v : JSValue) (literal : String) : Bool :=
  match v with
  | .string s => s == literal
  | _ => false

/-- The language's ToBoolean on a number. -/
def JSNumber.toBoolean : JSNumber → Bool
  | .finite mantissa _ => mantissa != 0
  | .infinite _ => true

/-- The language's ToBoolean, as applied by `&&` and `if`. -/
def JSValue.toBoolean : JSValue → Bool
  | .undefined => false
  | .null => false
  | .bool b => b
  | .number n => n.toBoolean
  | .string s => s != ""
  | .array _ => true
  | .object _ => true

/-! ## Effects and request outcomes -/

/-- Second argument of a `console.error` call. -/
inductive LogArg where
  | data (v : JSValue)
  | error (e : JSError)

/-- Observable actions of the script, in the order they happen. -/
inductive Effect where
  /-- Call `fetch(url)`. -/
  | fetch (url : String)
  /-- Call `response.json()`. -/
  | parseJson
  /-- Call `console.error(message, arg)`. -/
  | consoleError (message : String) (arg : LogArg)
  /-- Call `window.location.reload()`. -/
  | reload
  /-- Call `setTimeout(() => pollVideoStatus(videoId), delay)`. -/
  | setTimeout (videoId : String) (delay : Nat)

/-- The HTTP response as the script looks at it: its status code and what
`response.json()` settles with, if it is called. -/
structure Response where
  status : Nat
  json : Except JSError JSValue

/-- The `ok` getter of a response: the status code is in the range 200 to 299. -/
def Response.ok (r : Response) : Bool :=
  decide (200 ≤ r.status) && decide (r.status ≤ 299)

/-- How the promise returned by `fetch` settles. -/
inductive Outcome where
  | rejected (reason : JSError)
  | responded (response : Response)

/-! ## The script -/

/-- The constant `POLL_INTERVAL`. -/
def POLL_INTERVAL : Nat := 5000

/-- Template literal of the request: the characters of `videoId` between the
two fixed parts. -/
def statusUrl (videoId : String) : String :=
  "/videos/" ++ videoId ++ "/status/"

/-- Effects of a call `schedulePoll(videoId)`. -/
def schedulePoll (videoId : String) : List Effect :=
  [.setTimeout videoId POLL_INTERVAL]

/-- First `.then` handler: effects performed and the value the returned promise
settles with. -/
def onResponse (response : Response) : List Effect × Except JSError JSValue :=
  if !response.ok then
    ([], .error (.error ("HTTP " ++ toString response.status)))
  else
    ([.parseJson], response.json)

/-- The condition `data.status === "completed" && data.video_url`, converted to
a boolean by the `if`.  The right operand is read only when the left one is
true. -/
def completedWithUrl (data : JSValue) : Except JSError Bool :=
  match data.get "status" with
  | .error e => .error e
  | .ok status =>
    if status.strictEqualsString "completed" then
      match data.get "video_url" with
      | .error e => .error e
      | .ok videoUrl => .ok videoUrl.toBoolean
    else
      .ok false

/-- The condition `data.status === "failed"`. -/
def statusFailed (data : JSValue) : Except JSError Bool :=
  match data.get "status" with
  | .error e => .error e
  | .ok status => .ok (status.strictEqualsString "failed")

/-- Second `.then` handler: effects performed and whether the handler returned
or threw. -/
def onData (videoId : String) (data : JSValue) : List Effect × Except JSError Unit :=
  match completedWithUrl data with
  | .error e => ([], .error e)
  | .ok true => ([.reload], .ok ())
  | .ok false =>
    match statusFailed data with
    | .error e => ([], .error e)
    | .ok true =>
      ([.consoleError "Génération vidéo échouée" (.data data), .reload], .ok ())
    | .ok false => (schedulePoll videoId, .ok ())

/-- The `.catch` handler. -/
def onError (videoId : String) (error : JSError) : List Effect :=
  .consoleError "Erreur de polling" (.error error) :: schedulePoll videoId

/-- Effects of the promise chain attached to the request of `videoId` once the
request settles with outcome `o`. -/
def settle (videoId : String) (o : Outcome) : List Effect :=
  match o with
  | .rejected reason => onError videoId reason
  | .responded response =>
    match onResponse response with
    | (effects, .error e) => effects ++ onError videoId e
    | (effects, .ok data) =>
      match onData videoId data with
      | (effects2, .error e) => effects ++ effects2 ++ onError videoId e
      | (effects2, .ok ()) => effects ++ effects2

/-- Synchronous part of a call `pollVideoStatus(videoId)`: the request is
issued and the handlers are attached. -/
def pollVideoStatusCall (videoId : String) : List Effect :=
  [.fetch (statusUrl videoId)]

/-- One step of `pollVideoStatus(videoId)`: the request is issued, settles with
outcome `o`, and the handlers run. -/
def pollVideoStatus (videoId : String) (o : Outcome) : List Effect :=
  pollVideoStatusCall videoId ++ settle videoId o

/-! ## Initialization -/

/-- An element of the page, reduced to the two attributes the script reads:
`data-video-pending` and `data-video-id`, each absent or a string. -/
structure Element where
  videoPending : Option String
  videoId : Option String

/-- The selector `[data-video-pending='true']` over the elements of the
document, in document order. -/
def querySelectorAllPending (document : List Element) : List Element :=
  document.filter (fun node => node.videoPending == some "true")

/-- The value `node.dataset.videoId`: the attribute as a string, `undefined`
when the element does not have it. -/
def Element.datasetVideoId (node : Element) : JSValue :=
  match node.videoId with
  | some id => .string id
  | none => .undefined

/-- Body of the `forEach` callback. -/
def forEachPending (node : Element) : List Effect :=
  if node.datasetVideoId.toBoolean then
    match node.datasetVideoId with
    | .string videoId => schedulePoll videoId
    | _ => []
  else
    []

/-- Top-level code of the script on a document given as the list of its
elements in document order. -/
def runScript (document : List Element) : List Effect :=
  ((querySelectorAllPending document).map forEachPending).flatten

/-! ## The event loop -/

/-- What is outstanding in the page: the timers set and not yet fired and the
requests issued and not yet settled, each owned by the `videoId` of its
closure, with the effects performed so far (oldest first). -/
structure State where
  timers : List String
  inflight : List String
  trace : List Effect

/-- Identifiers of the timers a list of effects sets. -/
def timersOf : List Effect → List String
  | [] => []
  | .setTimeout videoId _ :: rest => videoId :: timersOf rest
  | _ :: rest => timersOf rest

/-- Record effects performed by a callback: they extend the trace, and each
`setTimeout` among them adds a pending timer. -/
def State.perform (s : State) (effects : List Effect) : State :=
  { timers := s.timers ++ timersOf effects
    inflight := s.inflight
    trace := s.trace ++ effects }

/-- State of the page right after the script has run on `document`. -/
def boot (document : List Element) : State :=
  State.perform { timers := [], inflight := [], trace := [] } (runScript document)

/-- What the event loop can do next: let a pending timer fire, or deliver the
settlement of an in-flight request. -/
inductive Event where
  | timerFires (index : Nat)
  | requestSettles (index : Nat) (o : Outcome)

/-- One turn of the event loop; `none` when the event names no pending timer or
no in-flight request. -/
def step (s : State) : Event → Option State
  | .timerFires index =>
    match s.timers[index]? with
    | none => none
    | some videoId =>
      some { timers := s.timers.eraseIdx index
             inflight := s.inflight ++ [videoId]
             trace := s.trace ++ pollVideoStatusCall videoId }
  | .requestSettles index o =>
    match s.inflight[index]? with
    | none => none
    | some videoId =>
      some (State.perform
        { timers := s.timers, inflight := s.inflight.eraseIdx index, trace := s.trace }
        (settle videoId o))

/-- Run a sequence of events. -/
def run (s : State) : List Event → Option State
  | [] => some s
  | e :: rest =>
    match step s e with
    | none => none
    | some next => run next rest

/-- Number of outstanding polls owned by `videoId`: pending timers plus
in-flight requests. -/
def outstanding (s : State) (videoId : String) : Nat :=
  s.timers.count videoId + s.inflight.count videoId

/-- Number of elements of the document for which the script starts a poll
cycle on `videoId`. -/
def started (document : List Element) (videoId : String) : Nat :=
  (timersOf (runScript document)).count videoId

/-! ## Observations on a list of effects -/

/-- Number of page reloads among the effects. -/
def reloads : List Effect → Nat
  | [] => 0
  | .reload :: rest => reloads rest + 1
  | _ :: rest => reloads rest

/-- Number of `console.error` calls among the effects. -/
def logs : List Effect → Nat
  | [] => 0
  | .consoleError _ _ :: rest => logs rest + 1
  | _ :: rest => logs rest

/-- Addresses requested by the effects, in order. -/
def requests : List Effect → List String
  | [] => []
  | .fetch url :: rest => url :: requests rest
  | _ :: rest => requests rest

/-- Number of `response.json()` calls among the effects. -/
def parses : List Effect → Nat
  | [] => 0
  | .parseJson :: rest => parses rest + 1
  | _ :: rest => parses rest

/-! ## Conditions in the words of the specification -/

/-- Reading of "not yet terminal" for a parsed response object: its `status` is
neither "completed" nor "failed" (any other value, or absent), or it is
"completed" while `video_url` is missing or the empty string. -/
def NotYetTerminal (data : JSValue) : Prop :=
  ∃ fields, data = .object fields ∧
    ((data.get "status" ≠ .ok (.string "completed")
        ∧ data.get "status" ≠ .ok (.string "failed"))
      ∨ (data.get "status" = .ok (.string "completed")
        ∧ (fields.lookup "video_url" = none
          ∨ fields.lookup "video_url" = some (.string ""))))

/-- Terminal outcome: a success response that parsed, with `status` "failed",
or with `status` "completed" and `video_url` present.  A `video_url` that is
missing or empty does not count as present: what is read from the parsed value
has to be truthy. -/
def Terminal (o : Outcome) : Prop :=
  ∃ r data, o = .responded r ∧ r.ok = true ∧ r.json = .ok data ∧
    (data.get "status" = .ok (.string "failed")
      ∨ (data.get "status" = .ok (.string "completed")
        ∧ ∃ videoUrl, data.get "video_url" = .ok videoUrl ∧ videoUrl.toBoolean = true))

/-- Number of elements of the document marked pending that carry `videoId` as
their identifier. -/
def pendingWith (document : List Element) (videoId : String) : Nat :=
  document.countP (fun node =>
    node.videoPending == some "true" && node.videoId == some videoId)

/-! ## A whole poll cycle -/

/-- The Scheduled state of one poll cycle: `schedulePoll(videoId)` has just run
and nothing else is outstanding. -/
def scheduled (videoId : String) : State :=
  State.perform { timers := [], inflight := [], trace := [] } (schedulePoll videoId)

/-- Events of one poll cycle served with the given outcomes in turn: the timer
fires, then the request settles. -/
def cycleEvents : List Outcome → List Event
  | [] => []
  | o :: rest => .timerFires 0 :: .requestSettles 0 o :: cycleEvents rest

/-- Effects of one round that ends in a new timer without logging. -/
def quietRound (videoId : String) : List Effect :=
  [.fetch (statusUrl videoId), .parseJson, .setTimeout videoId 5000]


/-! ## One step of `pollVideoStatus` -/

theorem strictEqualsString_iff (v : JSValue) (literal : String) :
    v.strictEqualsString literal = true ↔ v = .string literal := by
  cases v <;> simp [JSValue.strictEqualsString]

/-- C1: a successfully received and parsed response with `status` exactly
"completed" and a non-empty string `video_url` makes one step of
`pollVideoStatus` request the status address, parse the body and reload the
page once; it sets no timer and logs nothing. -/
theorem pollVideoStatus_completed (videoId : String) (r : Response) (data : JSValue)
    (url : String) (hok : r.ok = true) (hjson : r.json = .ok data)
    (hstatus : data.get "status" = .ok (.string "completed"))
    (hurl : data.get "video_url" = .ok (.string url)) (hne : url ≠ "") :
    pollVideoStatus videoId (.responded r)
        = [.fetch (statusUrl videoId), .parseJson, .reload]
      ∧ reloads (pollVideoStatus videoId (.responded r)) = 1
      ∧ timersOf (pollVideoStatus videoId (.responded r)) = []
      ∧ requests (pollVideoStatus videoId (.responded r)) = [statusUrl videoId]
      ∧ logs (pollVideoStatus videoId (.responded r)) = 0 := by
  have h : pollVideoStatus videoId (.responded r)
      = [.fetch (statusUrl videoId), .parseJson, .reload] := by
    have hb : (url != "") = true := by simpa using hne
    simp [pollVideoStatus, pollVideoStatusCall, settle, onResponse, onData, completedWithUrl,
      hok, hjson, hstatus, hurl, JSValue.strictEqualsString, JSValue.toBoolean, hb]
  rw [h]
  simp [reloads, timersOf, requests, logs]

theorem pollVideoStatus_completed_witness :
    pollVideoStatus "42" (.responded ⟨200, .ok (.object
        [("status", .string "completed"), ("video_url", .string "/media/42.mp4")])⟩)
      = [.fetch "/videos/42/status/", .parseJson, .reload] :=
  (pollVideoStatus_completed "42" ⟨200, .ok (.object
      [("status", .string "completed"), ("video_url", .string "/media/42.mp4")])⟩
    (.object [("status", .string "completed"), ("video_url", .string "/media/42.mp4")])
    "/media/42.mp4" rfl rfl rfl rfl (by decide)).1

theorem effects_failed (videoId : String) (r : Response) (data : JSValue)
    (hok : r.ok = true) (hjson : r.json = .ok data)
    (hstatus : data.get "status" = .ok (.string "failed")) :
    pollVideoStatus videoId (.responded r)
      = [.fetch (statusUrl videoId), .parseJson,
         .consoleError "Génération vidéo échouée" (.data data), .reload] := by
  have hc : ("failed" == "completed") = false := by decide
  simp [pollVideoStatus, pollVideoStatusCall, settle, onResponse, onData, completedWithUrl,
    statusFailed, hok, hjson, hstatus, JSValue.strictEqualsString, hc]

/-- C2: a successfully received and parsed response with `status` exactly
"failed", whatever its `video_url`, makes one step of `pollVideoStatus` log one
diagnostic carrying the payload and then reload the page once; it sets no
timer. -/
theorem pollVideoStatus_failed (videoId : String) (r : Response) (data : JSValue)
    (hok : r.ok = true) (hjson : r.json = .ok data)
    (hstatus : data.get "status" = .ok (.string "failed")) :
    pollVideoStatus videoId (.responded r)
        = [.fetch (statusUrl videoId), .parseJson,
           .consoleError "Génération vidéo échouée" (.data data), .reload]
      ∧ logs (pollVideoStatus videoId (.responded r)) = 1
      ∧ reloads (pollVideoStatus videoId (.responded r)) = 1
      ∧ timersOf (pollVideoStatus videoId (.responded r)) = [] := by
  rw [effects_failed videoId r data hok hjson hstatus]
  simp [reloads, timersOf, logs]

theorem pollVideoStatus_failed_witness :
    pollVideoStatus "7" (.responded ⟨200, .ok (.object
        [("status", .string "failed"), ("video_url", .string "/media/7.mp4")])⟩)
      = [.fetch "/videos/7/status/", .parseJson,
         .consoleError "Génération vidéo échouée" (.data (.object
           [("status", .string "failed"), ("video_url", .string "/media/7.mp4")])),
         .reload] :=
  (pollVideoStatus_failed "7" ⟨200, .ok (.object
      [("status", .string "failed"), ("video_url", .string "/media/7.mp4")])⟩
    (.object [("status", .string "failed"), ("video_url", .string "/media/7.mp4")])
    rfl rfl rfl).1

theorem onData_notYetTerminal (videoId : String) (data : JSValue)
    (h : NotYetTerminal data) :
    onData videoId data = ([.setTimeout videoId 5000], .ok ()) := by
  obtain ⟨fields, rfl, h⟩ := h
  rcases h with ⟨h1, h2⟩ | ⟨h1, h2⟩
  · have hs : ∃ st, (JSValue.object fields).get "status" = .ok st := by
      simp only [JSValue.get]; split <;> simp
    obtain ⟨st, hst⟩ := hs
    have n1 : st.strictEqualsString "completed" = false := by
      cases hb : st.strictEqualsString "completed"
      · rfl
      · rw [strictEqualsString_iff] at hb; subst hb; exact absurd hst h1
    have n2 : st.strictEqualsString "failed" = false := by
      cases hb : st.strictEqualsString "failed"
      · rfl
      · rw [strictEqualsString_iff] at hb; subst hb; exact absurd hst h2
    simp [onData, completedWithUrl, statusFailed, hst, n1, n2, schedulePoll, POLL_INTERVAL]
  · have hc : ("completed" == "failed") = false := by decide
    rcases h2 with h2 | h2
    · have hv : (JSValue.object fields).get "video_url" = .ok .undefined := by
        simp [JSValue.get, h2]
      simp [onData, completedWithUrl, statusFailed, h1, hv,
        JSValue.strictEqualsString, JSValue.toBoolean, hc, schedulePoll, POLL_INTERVAL]
    · have hv : (JSValue.object fields).get "video_url" = .ok (.string "") := by
        simp [JSValue.get, h2]
      simp [onData, completedWithUrl, statusFailed, h1, hv,
        JSValue.strictEqualsString, JSValue.toBoolean, hc, schedulePoll, POLL_INTERVAL]

theorem effects_notYetTerminal (videoId : String) (r : Response) (data : JSValue)
    (hok : r.ok = true) (hjson : r.json = .ok data) (hdata : NotYetTerminal data) :
    pollVideoStatus videoId (.responded r)
      = [.fetch (statusUrl videoId), .parseJson, .setTimeout videoId 5000] := by
  simp [pollVideoStatus, pollVideoStatusCall, settle, onResponse, hok, hjson,
    onData_notYetTerminal videoId data hdata]

/-- C3: a successfully received and parsed response object whose `status` is
neither "completed" nor "failed" (or absent), or is "completed" with `video_url`
missing or empty, makes one step of `pollVideoStatus` reload nothing and set
exactly one timer for the same identifier with a delay of 5000 ms. -/
theorem pollVideoStatus_notYetTerminal (videoId : String) (r : Response) (data : JSValue)
    (hok : r.ok = true) (hjson : r.json = .ok data) (hdata : NotYetTerminal data) :
    pollVideoStatus videoId (.responded r)
        = [.fetch (statusUrl videoId), .parseJson, .setTimeout videoId 5000]
      ∧ reloads (pollVideoStatus videoId (.responded r)) = 0
      ∧ timersOf (pollVideoStatus videoId (.responded r)) = [videoId] := by
  rw [effects_notYetTerminal videoId r data hok hjson hdata]
  simp [reloads, timersOf]

theorem pollVideoStatus_notYetTerminal_witness :
    pollVideoStatus "7" (.responded ⟨200, .ok (.object
        [("status", .string "completed"), ("video_url", .string "")])⟩)
      = [.fetch "/videos/7/status/", .parseJson, .setTimeout "7" 5000] :=
  (pollVideoStatus_notYetTerminal "7" ⟨200, .ok (.object
      [("status", .string "completed"), ("video_url", .string "")])⟩
    (.object [("status", .string "completed"), ("video_url", .string "")])
    rfl rfl ⟨_, rfl, Or.inr ⟨rfl, Or.inr rfl⟩⟩).1

theorem effects_rejected (videoId : String) (reason : JSError) :
    pollVideoStatus videoId (.rejected reason)
      = [.fetch (statusUrl videoId),
         .consoleError "Erreur de polling" (.error reason),
         .setTimeout videoId 5000] := by
  simp [pollVideoStatus, pollVideoStatusCall, settle, onError, schedulePoll, POLL_INTERVAL]

theorem effects_unparsed (videoId : String) (r : Response) (reason : JSError)
    (hok : r.ok = true) (hjson : r.json = .error reason) :
    pollVideoStatus videoId (.responded r)
      = [.fetch (statusUrl videoId), .parseJson,
         .consoleError "Erreur de polling" (.error reason),
         .setTimeout videoId 5000] := by
  simp [pollVideoStatus, pollVideoStatusCall, settle, onResponse, hok, hjson, onError,
    schedulePoll, POLL_INTERVAL]

theorem effects_not_ok (videoId : String) (r : Response) (hok : r.ok = false) :
    pollVideoStatus videoId (.responded r)
      = [.fetch (statusUrl videoId),
         .consoleError "Erreur de polling"
           (.error (.error ("HTTP " ++ toString r.status))),
         .setTimeout videoId 5000] := by
  simp [pollVideoStatus, pollVideoStatusCall, settle, onResponse, hok, onError,
    schedulePoll, POLL_INTERVAL]

/-- C4: every failed request outcome makes one step of `pollVideoStatus` reload
nothing, log exactly one diagnostic and set exactly one timer for the same
identifier with a delay of 5000 ms.  The three failures are a rejected request,
a success response whose body does not parse, and a response whose status code
is outside 200..299; in the last case `response.json()` is not called, whatever
the body is, and the logged error is `Error("HTTP " + status)`. -/
theorem pollVideoStatus_failure (videoId : String) :
    (∀ reason : JSError,
      pollVideoStatus videoId (.rejected reason)
        = [.fetch (statusUrl videoId),
           .consoleError "Erreur de polling" (.error reason),
           .setTimeout videoId 5000])
    ∧ (∀ (r : Response) (reason : JSError), r.ok = true → r.json = .error reason →
      pollVideoStatus videoId (.responded r)
        = [.fetch (statusUrl videoId), .parseJson,
           .consoleError "Erreur de polling" (.error reason),
           .setTimeout videoId 5000])
    ∧ (∀ r : Response, r.ok = false →
      pollVideoStatus videoId (.responded r)
          = [.fetch (statusUrl videoId),
             .consoleError "Erreur de polling"
               (.error (.error ("HTTP " ++ toString r.status))),
             .setTimeout videoId 5000]
        ∧ parses (pollVideoStatus videoId (.responded r)) = 0)
    ∧ (∀ o : Outcome,
      (match o with
        | .rejected _ => True
        | .responded r => r.ok = false ∨ ∃ reason, r.json = .error reason) →
      reloads (pollVideoStatus videoId o) = 0
        ∧ logs (pollVideoStatus videoId o) = 1
        ∧ timersOf (pollVideoStatus videoId o) = [videoId]) := by
  have h1 := effects_rejected videoId
  have h2 := effects_unparsed videoId
  have h3 := effects_not_ok videoId
  refine ⟨h1, h2, ?_, ?_⟩
  · intro r hok
    refine ⟨h3 r hok, ?_⟩
    rw [h3 r hok]
    simp [parses]
  · intro o ho
    cases o with
    | rejected reason =>
      rw [h1 reason]
      simp [reloads, logs, timersOf]
    | responded r =>
      cases hok : r.ok with
      | false =>
        rw [h3 r hok]
        simp [reloads, logs, timersOf]
      | true =>
        rcases ho with ho | ⟨reason, ho⟩
        · rw [hok] at ho; cases ho
        · rw [h2 r reason hok ho]
          simp [reloads, logs, timersOf]

theorem pollVideoStatus_failure_witness :
    pollVideoStatus "42" (.responded ⟨500, .ok (.object
        [("status", .string "completed"), ("video_url", .string "/media/42.mp4")])⟩)
      = [.fetch "/videos/42/status/",
         .consoleError "Erreur de polling" (.error (.error "HTTP 500")),
         .setTimeout "42" 5000] :=
  ((pollVideoStatus_failure "42").2.2.1 ⟨500, .ok (.object
      [("status", .string "completed"), ("video_url", .string "/media/42.mp4")])⟩ rfl).1

theorem statusUrl_injective (a b : String) (h : statusUrl a = statusUrl b) : a = b := by
  have hd := congrArg String.data h
  simp only [statusUrl, String.data_append] at hd
  have h1 := List.append_cancel_right hd
  have h2 := List.append_cancel_left h1
  exact String.ext h2

theorem requests_settle (videoId : String) (o : Outcome) :
    requests (settle videoId o) = [] := by
  cases o with
  | rejected reason => simp [settle, onError, schedulePoll, requests]
  | responded r =>
    simp only [settle, onResponse]
    cases r.ok <;> simp [onError, schedulePoll, requests]
    cases r.json with
    | error e => simp [onError, schedulePoll, requests]
    | ok data =>
      simp only [onData]
      cases completedWithUrl data with
      | error e => simp [onError, schedulePoll, requests]
      | ok b =>
        cases b
        · cases statusFailed data with
          | error e => simp [onError, schedulePoll, requests]
          | ok c => cases c <;> simp [onError, schedulePoll, requests]
        · simp [requests]

/-- C8: the address requested by `pollVideoStatus` is exactly
`"/videos/" ++ id ++ "/status/"` with the identifier copied verbatim; it is the
only address a step requests, whatever the outcome, and two different
identifiers never give the same address. -/
theorem statusUrl_verbatim :
    (∀ (id : String) (o : Outcome),
      requests (pollVideoStatus id o) = ["/videos/" ++ id ++ "/status/"])
    ∧ (∀ id : String,
      (statusUrl id).data = "/videos/".data ++ id.data ++ "/status/".data)
    ∧ (∀ a b : String, a ≠ b → statusUrl a ≠ statusUrl b) := by
  refine ⟨?_, ?_, ?_⟩
  · intro id o
    have h := requests_settle id o
    show requests (.fetch (statusUrl id) :: settle id o) = _
    simp only [requests, h]
    rfl
  · intro id
    simp [statusUrl, String.data_append]
  · intro a b hab h
    exact hab (statusUrl_injective a b h)

theorem statusUrl_verbatim_witness :
    statusUrl "a b/../?x#y" ≠ statusUrl "a%20b/../?x#y"
      ∧ statusUrl "a b/../?x#y" = "/videos/a b/../?x#y/status/" :=
  ⟨statusUrl_verbatim.2.2 "a b/../?x#y" "a%20b/../?x#y" (by decide), by decide⟩

/-- C10: a success response whose body parses to something other than the
expected object never reloads and sets exactly one timer at 5000 ms: silently
for a number, string, boolean or array (the `status` read gives `undefined`),
and after one logged TypeError for `null` (the `status` read throws and the
`.catch` handler runs).  With `status` "completed" the step reloads exactly
when `video_url` is truthy. -/
theorem pollVideoStatus_unexpected_shape (videoId : String) (r : Response)
    (hok : r.ok = true) :
    (∀ data : JSValue, r.json = .ok data →
      ((∃ n, data = .number n) ∨ (∃ s, data = .string s) ∨ (∃ b, data = .bool b)
        ∨ (∃ items, data = .array items)) →
      data.get "status" = .ok .undefined
        ∧ pollVideoStatus videoId (.responded r)
          = [.fetch (statusUrl videoId), .parseJson, .setTimeout videoId 5000])
    ∧ (r.json = .ok .null →
      pollVideoStatus videoId (.responded r)
        = [.fetch (statusUrl videoId), .parseJson,
           .consoleError "Erreur de polling" (.error (.typeError "status")),
           .setTimeout videoId 5000])
    ∧ (∀ data videoUrl : JSValue, r.json = .ok data →
      data.get "status" = .ok (.string "completed") →
      data.get "video_url" = .ok videoUrl →
      pollVideoStatus videoId (.responded r)
        = [.fetch (statusUrl videoId), .parseJson,
           if videoUrl.toBoolean then .reload else .setTimeout videoId 5000])
    ∧ (∀ s : String, s ≠ "" → (JSValue.string s).toBoolean = true)
    ∧ (∀ mantissa exponent : Int, mantissa ≠ 0 →
      (JSValue.number (.finite mantissa exponent)).toBoolean = true)
    ∧ (JSValue.bool true).toBoolean = true
    ∧ (∀ fields, (JSValue.object fields).toBoolean = true)
    ∧ (∀ items, (JSValue.array items).toBoolean = true)
    ∧ (∀ fields : List (String × JSValue), fields.lookup "video_url" = none →
      (JSValue.object fields).get "video_url" = .ok .undefined)
    ∧ JSValue.undefined.toBoolean = false
    ∧ JSValue.null.toBoolean = false
    ∧ (JSValue.string "").toBoolean = false
    ∧ (∀ exponent : Int, (JSValue.number (.finite 0 exponent)).toBoolean = false)
    ∧ (JSValue.bool false).toBoolean = false := by
  refine ⟨?_, ?_, ?_, ?_, ?_, rfl, fun _ => rfl, fun _ => rfl, ?_, rfl, rfl, rfl,
    fun _ => rfl, rfl⟩
  · intro data hjson hshape
    rcases hshape with ⟨n, rfl⟩ | ⟨s, rfl⟩ | ⟨b, rfl⟩ | ⟨items, rfl⟩ <;>
      simp [pollVideoStatus, pollVideoStatusCall, settle, onResponse, hok, hjson, onData,
        completedWithUrl, statusFailed, JSValue.get, JSValue.strictEqualsString,
        schedulePoll, POLL_INTERVAL]
  · intro hjson
    simp [pollVideoStatus, pollVideoStatusCall, settle, onResponse, hok, hjson, onData,
      completedWithUrl, JSValue.get, onError, schedulePoll, POLL_INTERVAL]
  · intro data videoUrl hjson hstatus hurl
    have hc : ("completed" == "failed") = false := by decide
    cases hb : videoUrl.toBoolean <;>
      simp [pollVideoStatus, pollVideoStatusCall, settle, onResponse, hok, hjson, onData,
        completedWithUrl, statusFailed, hstatus, hurl, hb, hc, JSValue.strictEqualsString,
        schedulePoll, POLL_INTERVAL]
  · intro s hs
    simpa [JSValue.toBoolean] using hs
  · intro mantissa exponent hm
    simpa [JSValue.toBoolean, JSNumber.toBoolean] using hm
  · intro fields hf
    simp [JSValue.get, hf]

theorem pollVideoStatus_unexpected_shape_witness :
    pollVideoStatus "42" (.responded ⟨200, .ok .null⟩)
      = [.fetch "/videos/42/status/", .parseJson,
         .consoleError "Erreur de polling" (.error (.typeError "status")),
         .setTimeout "42" 5000] :=
  (pollVideoStatus_unexpected_shape "42" ⟨200, .ok .null⟩ rfl).2.1 rfl

theorem completedWithUrl_of_terminal {data : JSValue}
    (hstatus : data.get "status" = .ok (.string "completed")) {videoUrl : JSValue}
    (hurl : data.get "video_url" = .ok videoUrl) :
    completedWithUrl data = .ok videoUrl.toBoolean := by
  simp [completedWithUrl, hstatus, hurl, JSValue.strictEqualsString]

theorem statusFailed_of_get {data status : JSValue} (hstatus : data.get "status" = .ok status) :
    statusFailed data = .ok (status.strictEqualsString "failed") := by
  simp [statusFailed, hstatus]

theorem completedWithUrl_of_failed {data : JSValue}
    (hstatus : data.get "status" = .ok (.string "failed")) :
    completedWithUrl data = .ok false := by
  have hc : ("failed" == "completed") = false := by decide
  simp [completedWithUrl, hstatus, JSValue.strictEqualsString, hc]

theorem completedWithUrl_true {data : JSValue} (h : completedWithUrl data = .ok true) :
    data.get "status" = .ok (.string "completed")
      ∧ ∃ videoUrl, data.get "video_url" = .ok videoUrl ∧ videoUrl.toBoolean = true := by
  unfold completedWithUrl at h
  cases hs : data.get "status" with
  | error e => simp [hs] at h
  | ok status =>
    cases hb : status.strictEqualsString "completed" with
    | false => simp [hs, hb] at h
    | true =>
      have hst := (strictEqualsString_iff status "completed").1 hb
      subst hst
      refine ⟨rfl, ?_⟩
      cases hv : data.get "video_url" with
      | error e => simp [hs, hb, hv] at h
      | ok videoUrl =>
        simp [hs, hb, hv] at h
        exact ⟨videoUrl, rfl, h⟩

theorem statusFailed_true {data : JSValue} (h : statusFailed data = .ok true) :
    data.get "status" = .ok (.string "failed") := by
  unfold statusFailed at h
  cases hs : data.get "status" with
  | error e => simp [hs] at h
  | ok status =>
    simp [hs] at h
    rw [(strictEqualsString_iff status "failed").1 h]

theorem onData_of_terminal {data : JSValue}
    (h : data.get "status" = .ok (.string "failed")
      ∨ (data.get "status" = .ok (.string "completed")
        ∧ ∃ videoUrl, data.get "video_url" = .ok videoUrl ∧ videoUrl.toBoolean = true)) :
    completedWithUrl data = .ok true
      ∨ (completedWithUrl data = .ok false ∧ statusFailed data = .ok true) := by
  rcases h with h | ⟨h, videoUrl, hv, hb⟩
  · right
    refine ⟨completedWithUrl_of_failed h, ?_⟩
    rw [statusFailed_of_get h]
    simp [JSValue.strictEqualsString]
  · left
    rw [completedWithUrl_of_terminal h hv, hb]

theorem one_action (videoId : String) (o : Outcome) :
    ∃ before : List Effect, reloads before = 0 ∧ timersOf before = [] ∧
      ((Terminal o ∧ pollVideoStatus videoId o = before ++ [.reload])
        ∨ (¬ Terminal o
          ∧ pollVideoStatus videoId o = before ++ [.setTimeout videoId 5000])) := by
  cases o with
  | rejected reason =>
    refine ⟨[.fetch (statusUrl videoId), .consoleError "Erreur de polling" (.error reason)],
      rfl, rfl, Or.inr ⟨?_, ?_⟩⟩
    · rintro ⟨r, data, h, -⟩; cases h
    · exact effects_rejected videoId reason
  | responded r =>
    cases hok : r.ok with
    | false =>
      refine ⟨[.fetch (statusUrl videoId), .consoleError "Erreur de polling"
          (.error (.error ("HTTP " ++ toString r.status)))], rfl, rfl, Or.inr ⟨?_, ?_⟩⟩
      · rintro ⟨r2, data, h, hok2, -⟩
        cases h
        rw [hok] at hok2; cases hok2
      · exact effects_not_ok videoId r hok
    | true =>
      cases hj : r.json with
      | error reason =>
        refine ⟨[.fetch (statusUrl videoId), .parseJson,
          .consoleError "Erreur de polling" (.error reason)], rfl, rfl, Or.inr ⟨?_, ?_⟩⟩
        · rintro ⟨r2, data, h, -, hj2, -⟩
          cases h
          rw [hj] at hj2; cases hj2
        · exact effects_unparsed videoId r reason hok hj
      | ok data =>
        have hterm : Terminal (.responded r) →
            completedWithUrl data = .ok true
              ∨ (completedWithUrl data = .ok false ∧ statusFailed data = .ok true) := by
          rintro ⟨r2, data2, h, -, hj2, hd⟩
          cases h
          rw [hj] at hj2
          cases hj2
          exact onData_of_terminal hd
        cases hc : completedWithUrl data with
        | error e =>
          refine ⟨[.fetch (statusUrl videoId), .parseJson,
            .consoleError "Erreur de polling" (.error e)], rfl, rfl, Or.inr ⟨?_, ?_⟩⟩
          · intro ht
            rcases hterm ht with h | ⟨h, -⟩ <;> rw [hc] at h <;> cases h
          · simp [pollVideoStatus, pollVideoStatusCall, settle, onResponse, hok, hj, onData,
              hc, onError, schedulePoll, POLL_INTERVAL]
        | ok b =>
          cases b with
          | true =>
            refine ⟨[.fetch (statusUrl videoId), .parseJson], rfl, rfl, Or.inl ⟨?_, ?_⟩⟩
            · exact ⟨r, data, rfl, hok, hj, Or.inr (completedWithUrl_true hc)⟩
            · simp [pollVideoStatus, pollVideoStatusCall, settle, onResponse, hok, hj,
                onData, hc]
          | false =>
            cases hf : statusFailed data with
            | error e =>
              refine ⟨[.fetch (statusUrl videoId), .parseJson,
                .consoleError "Erreur de polling" (.error e)], rfl, rfl, Or.inr ⟨?_, ?_⟩⟩
              · intro ht
                rcases hterm ht with h | ⟨-, h⟩
                · rw [hc] at h; cases h
                · rw [hf] at h; cases h
              · simp [pollVideoStatus, pollVideoStatusCall, settle, onResponse, hok, hj,
                  onData, hc, hf, onError, schedulePoll, POLL_INTERVAL]
            | ok c =>
              cases c with
              | true =>
                refine ⟨[.fetch (statusUrl videoId), .parseJson,
                  .consoleError "Génération vidéo échouée" (.data data)], rfl, rfl,
                  Or.inl ⟨?_, ?_⟩⟩
                · exact ⟨r, data, rfl, hok, hj, Or.inl (statusFailed_true hf)⟩
                · simp [pollVideoStatus, pollVideoStatusCall, settle, onResponse, hok, hj,
                    onData, hc, hf]
              | false =>
                refine ⟨[.fetch (statusUrl videoId), .parseJson], rfl, rfl,
                  Or.inr ⟨?_, ?_⟩⟩
                · intro ht
                  rcases hterm ht with h | ⟨-, h⟩
                  · rw [hc] at h; cases h
                  · rw [hf] at h; cases h
                · simp [pollVideoStatus, pollVideoStatusCall, settle, onResponse, hok, hj,
                    onData, hc, hf, schedulePoll, POLL_INTERVAL]

/-- C7: for every outcome of the status request, one step of `pollVideoStatus`
ends in exactly one of two actions, a page reload or a timer for the same
identifier at 5000 ms, with neither action before it; and it ends in the reload
exactly when the response was a success, parsed, and had `status` "failed" or
`status` "completed" with `video_url` present (not missing and not empty). -/
theorem pollVideoStatus_one_action (videoId : String) (o : Outcome) :
    ∃ before : List Effect, reloads before = 0 ∧ timersOf before = [] ∧
      ((Terminal o ∧ pollVideoStatus videoId o = before ++ [.reload])
        ∨ (¬ Terminal o
          ∧ pollVideoStatus videoId o = before ++ [.setTimeout videoId 5000])) :=
  one_action videoId o

/-! ## Initialization -/

theorem runScript_append (a b : List Element) :
    runScript (a ++ b) = runScript a ++ runScript b := by
  simp [runScript, querySelectorAllPending, List.filter_append]

theorem runScript_cons (node : Element) (rest : List Element) :
    runScript (node :: rest) = runScript [node] ++ runScript rest :=
  runScript_append [node] rest

theorem runScript_single (node : Element) :
    runScript [node] =
      if node.videoPending = some "true" then forEachPending node else [] := by
  by_cases h : node.videoPending = some "true" <;>
    simp [runScript, querySelectorAllPending, h]

theorem runScript_single_shape (node : Element) :
    runScript [node] = [] ∨ ∃ id, runScript [node] = [.setTimeout id 5000] := by
  rw [runScript_single]
  split
  · unfold forEachPending
    split
    · split
      · exact Or.inr ⟨_, rfl⟩
      · exact Or.inl rfl
    · exact Or.inl rfl
  · exact Or.inl rfl

theorem runScript_only_timers (document : List Element) :
    ∀ e ∈ runScript document, ∃ id, e = Effect.setTimeout id 5000 := by
  induction document with
  | nil => intro e he; simp [runScript, querySelectorAllPending] at he
  | cons node rest ih =>
    intro e he
    rw [runScript_cons, List.mem_append] at he
    rcases he with he | he
    · rcases runScript_single_shape node with h | ⟨id, h⟩
      · rw [h] at he; cases he
      · rw [h] at he
        simp at he
        exact ⟨id, he⟩
    · exact ih e he

theorem requests_runScript (document : List Element) : requests (runScript document) = [] := by
  induction document with
  | nil => rfl
  | cons node rest ih =>
    rw [runScript_cons]
    rcases runScript_single_shape node with h | ⟨id, h⟩
    · rw [h]; simpa using ih
    · rw [h]; simpa [requests] using ih

/-- C5: on any document the script handles each element on its own, in
document order.  An element starts a poll cycle exactly when its pending
attribute is the string "true" and its identifier is present and non-empty;
every other element contributes nothing.  A started cycle is a single timer of
5000 ms: the script issues no request while it scans, and the page is left with
no request in flight. -/
theorem runScript_starts_cycles (before after : List Element) (node : Element) :
    runScript (before ++ node :: after)
        = runScript before ++ runScript [node] ++ runScript after
      ∧ (∀ id : String, node.videoPending = some "true" → node.videoId = some id →
          id ≠ "" → runScript [node] = [.setTimeout id 5000])
      ∧ (node.videoPending ≠ some "true" → runScript [node] = [])
      ∧ (node.videoId = none ∨ node.videoId = some "" → runScript [node] = [])
      ∧ (∀ e ∈ runScript (before ++ node :: after), ∃ id, e = Effect.setTimeout id 5000)
      ∧ requests (runScript (before ++ node :: after)) = []
      ∧ (boot (before ++ node :: after)).inflight = []
      ∧ (boot (before ++ node :: after)).timers
          = timersOf (runScript (before ++ node :: after)) := by
  refine ⟨?_, ?_, ?_, ?_, runScript_only_timers _, requests_runScript _, rfl, ?_⟩
  · rw [runScript_append, runScript_cons, List.append_assoc]
  · intro id hp hid hne
    have hb : (id != "") = true := by simpa using hne
    simp [runScript_single, hp, forEachPending, Element.datasetVideoId, hid,
      JSValue.toBoolean, hb, schedulePoll, POLL_INTERVAL]
  · intro hp
    simp [runScript_single, hp]
  · intro hid
    rw [runScript_single]
    split
    · rcases hid with hid | hid <;>
        simp [forEachPending, Element.datasetVideoId, hid, JSValue.toBoolean]
    · rfl
  · simp [boot, State.perform]

theorem runScript_starts_cycles_witness :
    runScript [⟨some "true", some "7"⟩] = [.setTimeout "7" 5000]
      ∧ runScript [⟨some "True", some "7"⟩] = []
      ∧ runScript [⟨some "true", some ""⟩] = [] :=
  ⟨(runScript_starts_cycles [] [] ⟨some "true", some "7"⟩).2.1 "7" rfl rfl (by decide),
   (runScript_starts_cycles [] [] ⟨some "True", some "7"⟩).2.2.1 (by decide),
   (runScript_starts_cycles [] [] ⟨some "true", some ""⟩).2.2.2.1 (Or.inr rfl)⟩

/-! ## The event loop -/

theorem timersOf_append (a b : List Effect) :
    timersOf (a ++ b) = timersOf a ++ timersOf b := by
  induction a with
  | nil => rfl
  | cons e rest ih => cases e <;> simp [timersOf, ih]

theorem reloads_append (a b : List Effect) : reloads (a ++ b) = reloads a + reloads b := by
  induction a with
  | nil => simp [reloads]
  | cons e rest ih =>
    cases e <;> simp [reloads, ih]
    omega

theorem logs_append (a b : List Effect) : logs (a ++ b) = logs a + logs b := by
  induction a with
  | nil => simp [logs]
  | cons e rest ih =>
    cases e <;> simp [logs, ih]
    omega

theorem requests_append (a b : List Effect) :
    requests (a ++ b) = requests a ++ requests b := by
  induction a with
  | nil => rfl
  | cons e rest ih => cases e <;> simp [requests, ih]

theorem timersOf_settle (videoId : String) (o : Outcome) :
    timersOf (settle videoId o) = [] ∨ timersOf (settle videoId o) = [videoId] := by
  obtain ⟨before, -, hb, h⟩ := one_action videoId o
  have hp : timersOf (pollVideoStatus videoId o) = timersOf (settle videoId o) := rfl
  rcases h with ⟨-, h⟩ | ⟨-, h⟩
  · left
    rw [← hp, h, timersOf_append, hb]
    rfl
  · right
    rw [← hp, h, timersOf_append, hb]
    rfl

theorem count_eraseIdx_add (videoId : String) :
    ∀ (l : List String) (index : Nat) (owner : String), l[index]? = some owner →
      (l.eraseIdx index).count videoId + [owner].count videoId = l.count videoId := by
  intro l
  induction l with
  | nil => intro index owner h; simp at h
  | cons head tail ih =>
    intro index owner h
    cases index with
    | zero =>
      simp at h
      subst h
      simp [List.count_cons]
    | succ k =>
      simp at h
      have := ih k owner h
      simp [List.count_cons] at this ⊢
      omega

theorem step_outstanding_le (videoId : String) (s next : State) (e : Event)
    (h : step s e = some next) : outstanding next videoId ≤ outstanding s videoId := by
  cases e with
  | timerFires index =>
    simp only [step] at h
    cases ht : s.timers[index]? with
    | none => simp [ht] at h
    | some owner =>
      simp [ht] at h
      subst h
      have hc := count_eraseIdx_add videoId s.timers index owner ht
      simp only [outstanding, List.count_append]
      omega
  | requestSettles index o =>
    simp only [step] at h
    cases ht : s.inflight[index]? with
    | none => simp [ht] at h
    | some owner =>
      simp [ht] at h
      subst h
      have hc := count_eraseIdx_add videoId s.inflight index owner ht
      have hle : (timersOf (settle owner o)).count videoId ≤ [owner].count videoId := by
        rcases timersOf_settle owner o with h0 | h1
        · rw [h0]; simp
        · rw [h1]
      simp only [outstanding, State.perform, List.count_append]
      omega

theorem run_outstanding_le (videoId : String) (events : List Event) :
    ∀ s final : State, run s events = some final →
      outstanding final videoId ≤ outstanding s videoId := by
  induction events with
  | nil =>
    intro s final h
    simp [run] at h
    subst h
    exact Nat.le_refl _
  | cons e rest ih =>
    intro s final h
    simp only [run] at h
    cases hs : step s e with
    | none => simp [hs] at h
    | some next =>
      simp [hs] at h
      exact Nat.le_trans (ih next final h) (step_outstanding_le videoId s next e hs)

theorem started_le_pendingWith (document : List Element) (videoId : String) :
    started document videoId ≤ pendingWith document videoId := by
  induction document with
  | nil => simp [started, pendingWith, runScript, querySelectorAllPending, timersOf]
  | cons node rest ih =>
    have hs : started (node :: rest) videoId
        = (timersOf (runScript [node])).count videoId + started rest videoId := by
      simp [started, runScript_cons node rest, timersOf_append]
    have hp : pendingWith (node :: rest) videoId
        = (if (node.videoPending == some "true" && node.videoId == some videoId) = true
            then 1 else 0) + pendingWith rest videoId := by
      simp only [pendingWith, List.countP_cons]
      omega
    have h1 : (timersOf (runScript [node])).count videoId
        ≤ (if (node.videoPending == some "true" && node.videoId == some videoId) = true
            then 1 else 0) := by
      rw [runScript_single]
      by_cases hpend : node.videoPending = some "true"
      · cases hid : node.videoId with
        | none =>
          simp [hpend, forEachPending, Element.datasetVideoId, hid, JSValue.toBoolean,
            timersOf]
        | some id =>
          by_cases hne : id = ""
          · simp [hpend, forEachPending, Element.datasetVideoId, hid, JSValue.toBoolean,
              hne, timersOf]
          · have hb : (id != "") = true := by simpa using hne
            have hf : forEachPending node = [.setTimeout id POLL_INTERVAL] := by
              simp [forEachPending, Element.datasetVideoId, hid, JSValue.toBoolean, hb,
                schedulePoll]
            by_cases hv : id = videoId
            · simp [hpend, hf, hid, timersOf, hv]
            · have hv2 : ¬ videoId = id := fun h => hv h.symm
              simp [hpend, hf, hid, timersOf, hv, hv2, List.count_cons]
      · simp [hpend, timersOf]
    omega

theorem outstanding_boot (document : List Element) (videoId : String) :
    outstanding (boot document) videoId = started document videoId := by
  simp [outstanding, boot, State.perform, started]

/-- C6 (amended): when at most one pending element of the document carries a
given `videoId`, every state reachable from the script's start, under any
sequence of timer firings and request outcomes, has at most one outstanding
poll for that `videoId` (pending timers plus in-flight requests). -/
theorem outstanding_le_one (document : List Element) (videoId : String)
    (hdoc : pendingWith document videoId ≤ 1) (events : List Event) (s : State)
    (hrun : run (boot document) events = some s) :
    outstanding s videoId ≤ 1 := by
  have h1 := run_outstanding_le videoId events (boot document) s hrun
  rw [outstanding_boot] at h1
  have h2 := started_le_pendingWith document videoId
  omega

theorem outstanding_le_one_witness :
    outstanding
        { timers := ["8", "7"], inflight := []
          trace := [.setTimeout "7" 5000, .setTimeout "8" 5000, .fetch "/videos/7/status/",
            .parseJson, .setTimeout "7" 5000] }
        "7" ≤ 1 :=
  outstanding_le_one
    [⟨some "true", some "7"⟩, ⟨none, some "7"⟩, ⟨some "true", some "8"⟩] "7" (by decide)
    [.timerFires 0, .requestSettles 0 (.responded ⟨200, .ok (.object
      [("status", .string "pending")])⟩)]
    _ rfl

/-- C6 as worded fails: on a document with two pending elements carrying the
same identifier "7" the script sets two timers for "7", so the state right
after the start already has two outstanding polls for it. -/
theorem outstanding_two_of_duplicate_id :
    run (boot [⟨some "true", some "7"⟩, ⟨some "true", some "7"⟩]) []
        = some (boot [⟨some "true", some "7"⟩, ⟨some "true", some "7"⟩])
      ∧ outstanding (boot [⟨some "true", some "7"⟩, ⟨some "true", some "7"⟩]) "7" = 2 :=
  ⟨rfl, rfl⟩

/-! ## A whole poll cycle -/

theorem run_round (videoId : String) (t : List Effect) (o : Outcome) (rest : List Event) :
    run { timers := [videoId], inflight := [], trace := t }
        (.timerFires 0 :: .requestSettles 0 o :: rest)
      = run { timers := timersOf (settle videoId o), inflight := []
              trace := t ++ pollVideoStatus videoId o } rest := by
  simp [run, step, State.perform, pollVideoStatus, pollVideoStatusCall]

theorem run_cycle (videoId : String) (last : Response) (data : JSValue)
    (hok : last.ok = true) (hjson : last.json = .ok data)
    (hfailed : data.get "status" = .ok (.string "failed")) :
    ∀ (waiting : List Response) (t : List Effect),
      (∀ r ∈ waiting, r.ok = true ∧ ∃ d, r.json = .ok d ∧ NotYetTerminal d) →
      run { timers := [videoId], inflight := [], trace := t }
          (cycleEvents ((waiting ++ [last]).map .responded))
        = some { timers := [], inflight := []
                 trace := t ++ (List.replicate waiting.length (quietRound videoId)).flatten
                   ++ [.fetch (statusUrl videoId), .parseJson,
                       .consoleError "Génération vidéo échouée" (.data data), .reload] } := by
  intro waiting
  induction waiting with
  | nil =>
    intro t _
    have h := effects_failed videoId last data hok hjson hfailed
    have hp : timersOf (settle videoId (.responded last)) = [] := by
      have hq : timersOf (pollVideoStatus videoId (.responded last))
          = timersOf (settle videoId (.responded last)) := rfl
      rw [← hq, h]
      rfl
    simp only [List.nil_append, List.map_cons, List.map_nil, cycleEvents, run_round]
    rw [hp, h]
    simp [run]
  | cons r rest ih =>
    intro t hw
    obtain ⟨hrok, d, hrj, hd⟩ := hw r (List.mem_cons_self r rest)
    have h := effects_notYetTerminal videoId r d hrok hrj hd
    have hp : timersOf (settle videoId (.responded r)) = [videoId] := by
      have hq : timersOf (pollVideoStatus videoId (.responded r))
          = timersOf (settle videoId (.responded r)) := rfl
      rw [← hq, h]
      rfl
    show run _ (.timerFires 0 :: .requestSettles 0 (.responded r)
      :: cycleEvents ((rest ++ [last]).map .responded)) = _
    rw [run_round, hp, h]
    rw [ih _ (fun x hx => hw x (List.mem_cons_of_mem r hx))]
    simp [List.replicate_succ, quietRound, List.append_assoc]

theorem observe_quietRounds (videoId : String) (n : Nat) :
    requests (List.replicate n (quietRound videoId)).flatten
        = List.replicate n (statusUrl videoId)
      ∧ timersOf (List.replicate n (quietRound videoId)).flatten = List.replicate n videoId
      ∧ logs (List.replicate n (quietRound videoId)).flatten = 0
      ∧ reloads (List.replicate n (quietRound videoId)).flatten = 0 := by
  induction n with
  | zero => simp [requests, timersOf, logs, reloads]
  | succ k ih =>
    obtain ⟨h1, h2, h3, h4⟩ := ih
    have q1 : requests (quietRound videoId) = [statusUrl videoId] := rfl
    have q2 : timersOf (quietRound videoId) = [videoId] := rfl
    have q3 : logs (quietRound videoId) = 0 := rfl
    have q4 : reloads (quietRound videoId) = 0 := rfl
    simp [List.replicate_succ, requests_append, timersOf_append, logs_append,
      reloads_append, h1, h2, h3, h4, q1, q2, q3, q4]

/-- C9: from the Scheduled state of an identifier, serving the cycle with `n`
success responses that are not yet terminal and then a success response with
`status` "failed" runs to a state whose trace is the first timer, then `n`
rounds of request, parse and new timer at 5000 ms, then a request, a parse, one
logged error and one reload, in this order.  In total `n + 1` requests to the
identifier's address, `n + 1` timers, one log, one reload; afterwards no timer
is pending and no request is in flight, so no further event can happen. -/
theorem poll_cycle_until_failed (videoId : String) (waiting : List Response)
    (last : Response) (data : JSValue)
    (hwait : ∀ r ∈ waiting, r.ok = true ∧ ∃ d, r.json = .ok d ∧ NotYetTerminal d)
    (hok : last.ok = true) (hjson : last.json = .ok data)
    (hfailed : data.get "status" = .ok (.string "failed")) :
    ∃ s : State,
      run (scheduled videoId) (cycleEvents ((waiting ++ [last]).map .responded)) = some s
      ∧ s.trace
          = .setTimeout videoId 5000
            :: (List.replicate waiting.length
                  [.fetch (statusUrl videoId), .parseJson, .setTimeout videoId 5000]).flatten
            ++ [.fetch (statusUrl videoId), .parseJson,
                .consoleError "Génération vidéo échouée" (.data data), .reload]
      ∧ requests s.trace = List.replicate (waiting.length + 1) (statusUrl videoId)
      ∧ timersOf s.trace = List.replicate (waiting.length + 1) videoId
      ∧ logs s.trace = 1
      ∧ reloads s.trace = 1
      ∧ s.timers = [] ∧ s.inflight = []
      ∧ ∀ e : Event, step s e = none := by
  have h := run_cycle videoId last data hok hjson hfailed waiting
    [.setTimeout videoId 5000] hwait
  obtain ⟨h1, h2, h3, h4⟩ := observe_quietRounds videoId waiting.length
  refine ⟨_, h, rfl, ?_, ?_, ?_, ?_, rfl, rfl, ?_⟩
  · rw [List.replicate_succ']
    simp [requests_append, h1, requests]
  · rw [List.replicate_succ]
    simp [timersOf_append, h2, timersOf]
  · simp [logs_append, h3, logs]
  · simp [reloads_append, h4, reloads]
  · intro e
    cases e <;> simp [step]

theorem poll_cycle_until_failed_witness :
    ∃ s : State,
      run (scheduled "7") (cycleEvents
          [.responded ⟨200, .ok (.object [("status", .string "pending")])⟩,
           .responded ⟨200, .ok (.object [("status", .string "pending")])⟩,
           .responded ⟨200, .ok (.object [("status", .string "pending")])⟩,
           .responded ⟨200, .ok (.object [("status", .string "failed")])⟩]) = some s
      ∧ s.trace =
          [.setTimeout "7" 5000,
           .fetch "/videos/7/status/", .parseJson, .setTimeout "7" 5000,
           .fetch "/videos/7/status/", .parseJson, .setTimeout "7" 5000,
           .fetch "/videos/7/status/", .parseJson, .setTimeout "7" 5000,
           .fetch "/videos/7/status/", .parseJson,
           .consoleError "Génération vidéo échouée"
             (.data (.object [("status", .string "failed")])),
           .reload]
      ∧ s.timers = [] ∧ s.inflight = [] := by
  obtain ⟨s, hrun, htrace, -, -, -, -, ht, hi, -⟩ :=
    poll_cycle_until_failed "7"
      [(⟨200, .ok (.object [("status", .string "pending")])⟩ : Response),
       ⟨200, .ok (.object [("status", .string "pending")])⟩,
       ⟨200, .ok (.object [("status", .string "pending")])⟩]
      ⟨200, .ok (.object [("status", .string "failed")])⟩
      (.object [("status", .string "failed")])
      (by
        intro r hr
        simp only [List.mem_cons, List.mem_singleton, List.not_mem_nil, or_false,
          or_self] at hr
        subst hr
        refine ⟨rfl, _, rfl, _, rfl, Or.inl ⟨?_, ?_⟩⟩ <;> simp [JSValue.get])
      rfl rfl rfl
  exact ⟨s, hrun, htrace, ht, hi⟩

end Polling
